import Mathlib

/-!
Shallow embedding of the WHOOP API client (src/whoop_client.py) and proofs
about its token-lifecycle behaviour.

Modelling conventions:
* `time.time()` is an explicit `now : Int` parameter (seconds).
* Every outbound HTTP exchange is resolved by an oracle supplying the
  response the network would return; transport-level failures (timeouts,
  connection errors) are outside the model, which always delivers a
  status/body.
* Python exceptions raised by the client become constructors of
  `ClientError`; each constructor carries exactly the data the
  corresponding Python exception object carries.
* Python truthiness of optional strings (`not self.email`) and of the
  optional float expiry (`self.token_expires_at and ...`) is modelled
  explicitly: `None` and `""` are falsy, a `0` timestamp is falsy.
* Mutation of `self` is explicit state passing on `WhoopClient`; each
  operation also returns the list of network-visible events it produced.
-/

/-- Python truthiness of an optional string: `None` and `""` are falsy. -/
def pyTruthyStr : Option String → Bool
  | none => false
  | some s => decide (¬ s = "")

/-- Python truthiness of the optional expiry timestamp: `None` and `0` are falsy. -/
def pyTruthyTime : Option Int → Bool
  | none => false
  | some t => decide (¬ t = 0)

/-- httpx `response.raise_for_status()` passes exactly on 2xx statuses. -/
def is2xx (s : Nat) : Bool := decide (200 ≤ s ∧ s < 300)

/-- The `AuthenticationResult` object of the login response body:
`AccessToken` and `ExpiresIn` are both optional (`dict.get`). -/
structure AuthResult where
  accessToken : Option String
  expiresIn : Option Int
deriving DecidableEq

/-- Parsed JSON body of the login response; `authenticationResult = none`
models a body whose `AuthenticationResult` entry is absent (or falsy). -/
structure AuthBody where
  authenticationResult : Option AuthResult
deriving DecidableEq

/-- The HTTP response to the login POST. `body = none` models a response
whose body is not valid JSON (so `response.json()` raises). -/
structure AuthResponse where
  status : Nat
  text : String
  body : Option AuthBody
deriving DecidableEq

/-- The HTTP response to a data GET. `json = none` models an invalid JSON
body; `json = some j` is the parsed body, kept opaque as a string. -/
structure DataResponse where
  status : Nat
  text : String
  json : Option String
deriving DecidableEq

/-- Parsed JSON body of the profile endpoint; `user_id` optional (`dict.get`). -/
structure ProfileBody where
  user_id : Option Int
deriving DecidableEq

/-- The HTTP response to the profile GET. -/
structure ProfileResponse where
  status : Nat
  text : String
  body : Option ProfileBody
deriving DecidableEq

/-- The mutable fields of the Python `WhoopClient` instance. -/
structure WhoopClient where
  email : Option String
  password : Option String
  access_token : Option String
  token_expires_at : Option Int
  user_id : Option Int
deriving DecidableEq

/-- Errors raised by the client, one constructor per raise site, each
carrying exactly what the Python exception message/object carries:
* `credentialError`: `ValueError("WHOOP_EMAIL and WHOOP_PASSWORD must be set")`;
* `authenticationError bodyText`: `ValueError(f"Failed to authenticate with
  WHOOP API: \x7be.response.text\x7d")` — the message carries the response
  text only (the status code is logged, not raised);
* `missingAuthResult`: `ValueError("Login failed: No authentication result
  received")`;
* `jsonDecodeError doc`: `json.JSONDecodeError` escaping from
  `response.json()`, carrying the offending document;
* `apiRequestError status bodyText`: `ValueError(f"API request failed:
  \x7bstatus\x7d - \x7btext\x7d")`;
* `httpStatusError status bodyText`: an `httpx.HTTPStatusError` propagating
  uncaught (the retried GET failing), carrying the full response. -/
inductive ClientError
  | credentialError
  | authenticationError (bodyText : String)
  | missingAuthResult
  | jsonDecodeError (doc : String)
  | apiRequestError (status : Nat) (bodyText : String)
  | httpStatusError (status : Nat) (bodyText : String)
deriving DecidableEq

/-- The error kinds the spec files under `ApiRequestError`: any data-path
non-2xx (first attempt or the retried result) and a non-JSON success body. -/
def isApiRequestError : ClientError → Bool
  | .apiRequestError _ _ => true
  | .httpStatusError _ _ => true
  | .jsonDecodeError _ => true
  | _ => false

/-- Observable events of a client operation. `authenticateCall` marks entry
into `_authenticate` (not itself a network request); the others are network
requests. -/
inductive NetEvent
  | authenticateCall
  | loginPost
  | profileGet (token : String)
  | dataGet (endpoint : String) (params : Option String) (token : Option String)
deriving DecidableEq

/-- Network requests are every event except the `authenticateCall` marker. -/
def isNetReq : NetEvent → Bool
  | .authenticateCall => false
  | _ => true

def isAuthCall : NetEvent → Bool
  | .authenticateCall => true
  | _ => false

def isDataGet : NetEvent → Bool
  | .dataGet _ _ _ => true
  | _ => false

def isProfileGet : NetEvent → Bool
  | .profileGet _ => true
  | _ => false

/-- Number of `_authenticate` invocations recorded in a trace. -/
def countAuth (tr : List NetEvent) : Nat := tr.countP isAuthCall

/-- Number of data GETs recorded in a trace. -/
def countDataGet (tr : List NetEvent) : Nat := tr.countP isDataGet

instance exceptDecEq {e a : Type} [DecidableEq e] [DecidableEq a] :
    DecidableEq (Except e a) := fun x y =>
  match x, y with
  | .error u, .error v =>
      if h : u = v then .isTrue (by rw [h])
      else .isFalse (fun hc => h (Except.error.inj hc))
  | .ok u, .ok v =>
      if h : u = v then .isTrue (by rw [h])
      else .isFalse (fun hc => h (Except.ok.inj hc))
  | .error _, .ok _ => .isFalse (fun hc => Except.noConfusion hc)
  | .ok _, .error _ => .isFalse (fun hc => Except.noConfusion hc)

/-- Result of an operation that mutates the client and may raise. -/
structure AuthOutcome where
  state : WhoopClient
  result : Except ClientError Unit
  trace : List NetEvent
deriving DecidableEq

/-- Result of `_make_request`: mutated client, parsed JSON or error, trace. -/
structure RequestOutcome where
  state : WhoopClient
  result : Except ClientError String
  trace : List NetEvent
deriving DecidableEq

/-- `WhoopClient._authenticate` (src/whoop_client.py lines 33-74).
Checks credential truthiness, POSTs the login, `raise_for_status()`,
parses JSON, requires a truthy `AuthenticationResult`, then sets
`access_token` and `token_expires_at = now + ExpiresIn-or-86400`. -/
def authenticate (st : WhoopClient) (now : Int) (r : AuthResponse) : AuthOutcome :=
  if !pyTruthyStr st.email || !pyTruthyStr st.password then
    { state := st, result := .error .credentialError, trace := [.authenticateCall] }
  else if !is2xx r.status then
    { state := st, result := .error (.authenticationError r.text),
      trace := [.authenticateCall, .loginPost] }
  else
    match r.body with
    | none =>
        { state := st, result := .error (.jsonDecodeError r.text),
          trace := [.authenticateCall, .loginPost] }
    | some b =>
        match b.authenticationResult with
        | none =>
            { state := st, result := .error .missingAuthResult,
              trace := [.authenticateCall, .loginPost] }
        | some ar =>
            { state :=
                { st with access_token := ar.accessToken,
                          token_expires_at := some (now + ar.expiresIn.getD 86400) },
              result := .ok (), trace := [.authenticateCall, .loginPost] }

/-- `WhoopClient._get_user_id` (lines 76-90): no-op without a truthy token;
otherwise GETs the profile and swallows every failure. -/
def get_user_id (st : WhoopClient) (r : ProfileResponse) : WhoopClient × List NetEvent :=
  if !pyTruthyStr st.access_token then (st, [])
  else
    let evs := [NetEvent.profileGet (st.access_token.getD "")]
    if !is2xx r.status then (st, evs)
    else
      match r.body with
      | none => (st, evs)
      | some b => ({ st with user_id := b.user_id }, evs)

/-- The refresh condition of `_ensure_authenticated` (line 94):
`not self.access_token or (self.token_expires_at and time.time() >=
self.token_expires_at - 300)` — note the Python truthiness of the float
`token_expires_at`, which makes a `0` timestamp behave as absent. -/
def needs_refresh (st : WhoopClient) (now : Int) : Bool :=
  !pyTruthyStr st.access_token ||
    (pyTruthyTime st.token_expires_at &&
      decide (now ≥ st.token_expires_at.getD 0 - 300))

/-- `WhoopClient._ensure_authenticated` (lines 92-96). -/
def ensure_authenticated (st : WhoopClient) (now : Int) (r : AuthResponse) : AuthOutcome :=
  if needs_refresh st now then authenticate st now r
  else { state := st, result := .ok (), trace := [] }

/-- Responses the network supplies during one `_make_request` call:
`auth k` answers the k-th login POST, `data k` the k-th data GET. -/
structure Oracle where
  auth : Nat → AuthResponse
  data : Nat → DataResponse

/-- The 2xx arm of `_make_request`: `return response.json()`, where a parse
failure escapes as a `json.JSONDecodeError`. -/
def parse2xx (st1 : WhoopClient) (r : DataResponse) (tr : List NetEvent) : RequestOutcome :=
  match r.json with
  | some j => { state := st1, result := .ok j, trace := tr }
  | none => { state := st1, result := .error (.jsonDecodeError r.text), trace := tr }

/-- The 401 arm of `_make_request` (lines 132-139): re-authenticate once
(directly, bypassing the expiry check), rebuild the bearer header from the
new token, retry the same GET once; `raise_for_status()` on the retry
propagates an `httpx.HTTPStatusError` uncaught. -/
def retry401 (st1 : WhoopClient) (now : Int) (ep : String) (pa : Option String)
    (ra : AuthResponse) (r2 : DataResponse) (tr1 : List NetEvent) : RequestOutcome :=
  let a := authenticate st1 now ra
  match a.result with
  | .error err => { state := a.state, result := .error err, trace := tr1 ++ a.trace }
  | .ok _ =>
      let tr2 := tr1 ++ a.trace ++ [NetEvent.dataGet ep pa a.state.access_token]
      if is2xx r2.status then parse2xx a.state r2 tr2
      else { state := a.state, result := .error (.httpStatusError r2.status r2.text),
             trace := tr2 }

/-- The response dispatch of `_make_request` (lines 127-140): 2xx parses and
returns; 401 enters the single-retry arm; any other status raises
`ValueError(f"API request failed: ...")`. -/
def dispatch (st1 : WhoopClient) (now : Int) (ep : String) (pa : Option String)
    (r1 : DataResponse) (ra : AuthResponse) (r2 : DataResponse)
    (tr0 : List NetEvent) : RequestOutcome :=
  let tr1 := tr0 ++ [NetEvent.dataGet ep pa st1.access_token]
  if is2xx r1.status then parse2xx st1 r1 tr1
  else if r1.status = 401 then retry401 st1 now ep pa ra r2 tr1
  else { state := st1, result := .error (.apiRequestError r1.status r1.text), trace := tr1 }

/-- `WhoopClient._make_request` (lines 98-140): `_ensure_authenticated`,
then the GET with the current token, then `dispatch`. The 401-arm login
uses the oracle's next auth response (index 1 if the ensure step already
consumed index 0). -/
def make_request (st : WhoopClient) (now : Int) (ep : String) (pa : Option String)
    (o : Oracle) : RequestOutcome :=
  let e := ensure_authenticated st now (o.auth 0)
  match e.result with
  | .error err => { state := e.state, result := .error err, trace := e.trace }
  | .ok _ =>
      dispatch e.state now ep pa (o.data 0)
        (o.auth (if needs_refresh st now then 1 else 0)) (o.data 1) e.trace

/-- Session invariant of the spec: a held token implies a recorded expiry. -/
def TokenInvariant (st : WhoopClient) : Prop :=
  st.access_token.isSome = true → st.token_expires_at.isSome = true

instance (st : WhoopClient) : Decidable (TokenInvariant st) := by
  unfold TokenInvariant; infer_instance

/-! ### Concrete fixtures for witnesses and counterexamples -/

/-- Client holding a token far from expiry. -/
def cFresh : WhoopClient := ⟨some "user@example.com", some "pw", some "tok", some 100000, none⟩

/-- Client holding a token whose recorded expiry is the (falsy) timestamp 0. -/
def cZero : WhoopClient := ⟨some "user@example.com", some "pw", some "tok", some 0, none⟩

/-- Client with credentials but no session yet. -/
def cNoTok : WhoopClient := ⟨some "user@example.com", some "pw", none, none, none⟩

/-- Client whose password is the empty string. -/
def cEmptyPw : WhoopClient := ⟨some "user@example.com", some "", none, none, none⟩

/-- Client holding a token but no recorded expiry. -/
def cTokNoExp : WhoopClient := ⟨some "user@example.com", some "pw", some "tok", none, some 7⟩

/-- Successful login response: token tok2, lifetime 3600. -/
def rLogin : AuthResponse := ⟨200, "body", some ⟨some ⟨some "tok2", some 3600⟩⟩⟩

/-- Successful login response with no ExpiresIn field. -/
def rLoginNoExp : AuthResponse := ⟨200, "body", some ⟨some ⟨some "tok2", none⟩⟩⟩

/-- 2xx login response whose body lacks AuthenticationResult. -/
def rLoginMissing : AuthResponse := ⟨200, "nores", some ⟨none⟩⟩

/-- Rejected login response. -/
def rLoginDenied : AuthResponse := ⟨403, "denied", none⟩

/-- Successful profile response carrying user id 42. -/
def pOk : ProfileResponse := ⟨200, "p", some ⟨some 42⟩⟩

/-- Oracle: every data GET succeeds with body okj. -/
def oPlain : Oracle := ⟨fun _ => rLogin, fun _ => ⟨200, "okj", some "okj"⟩⟩

/-- Oracle: first data GET is 401, the retried GET succeeds. -/
def oRetryOk : Oracle :=
  ⟨fun _ => rLogin, fun k => if k = 0 then ⟨401, "unauth", none⟩ else ⟨200, "okj", some "okj"⟩⟩

/-- Oracle: every data GET is 401 (retry also fails). -/
def oRetry401 : Oracle := ⟨fun _ => rLogin, fun _ => ⟨401, "unauth", none⟩⟩

/-- Oracle: every data GET is 500. -/
def o500 : Oracle := ⟨fun _ => rLogin, fun _ => ⟨500, "boom", none⟩⟩

/-- Oracle: data GETs return 2xx with a body that is not valid JSON. -/
def oBadJson : Oracle := ⟨fun _ => rLogin, fun _ => ⟨200, "<html>", none⟩⟩

/-! ### Helper lemmas characterizing the operations -/

theorem ensure_of_refresh (st : WhoopClient) (now : Int) (r : AuthResponse)
    (h : needs_refresh st now = true) :
    ensure_authenticated st now r = authenticate st now r := by
  simp [ensure_authenticated, h]

theorem ensure_of_fresh (st : WhoopClient) (now : Int) (r : AuthResponse)
    (h : needs_refresh st now = false) :
    ensure_authenticated st now r = { state := st, result := .ok (), trace := [] } := by
  simp [ensure_authenticated, h]

theorem auth_cases (st : WhoopClient) (now : Int) (r : AuthResponse) :
    authenticate st now r =
      { state := st, result := .error .credentialError, trace := [.authenticateCall] } ∨
    authenticate st now r =
      { state := st, result := .error (.authenticationError r.text),
        trace := [.authenticateCall, .loginPost] } ∨
    authenticate st now r =
      { state := st, result := .error (.jsonDecodeError r.text),
        trace := [.authenticateCall, .loginPost] } ∨
    authenticate st now r =
      { state := st, result := .error .missingAuthResult,
        trace := [.authenticateCall, .loginPost] } ∨
    ∃ b ar, r.body = some b ∧ b.authenticationResult = some ar ∧
      authenticate st now r =
        { state := { st with access_token := ar.accessToken,
                             token_expires_at := some (now + ar.expiresIn.getD 86400) },
          result := .ok (), trace := [.authenticateCall, .loginPost] } := by
  unfold authenticate
  split
  · exact Or.inl rfl
  · split
    · exact Or.inr (Or.inl rfl)
    · split
      · exact Or.inr (Or.inr (Or.inl rfl))
      · split
        · exact Or.inr (Or.inr (Or.inr (Or.inl rfl)))
        · exact Or.inr (Or.inr (Or.inr (Or.inr
            ⟨_, _, by assumption, by assumption, rfl⟩)))

theorem auth_trace_cases (st : WhoopClient) (now : Int) (r : AuthResponse) :
    (authenticate st now r).trace = [.authenticateCall] ∨
    (authenticate st now r).trace = [.authenticateCall, .loginPost] := by
  rcases auth_cases st now r with h | h | h | h | ⟨b, ar, _, _, h⟩ <;> rw [h]
  · exact Or.inl rfl
  all_goals exact Or.inr rfl

theorem auth_countAuth (st : WhoopClient) (now : Int) (r : AuthResponse) :
    countAuth (authenticate st now r).trace = 1 := by
  rcases auth_trace_cases st now r with h | h <;> rw [h] <;> rfl

theorem auth_no_dataGet (st : WhoopClient) (now : Int) (r : AuthResponse) :
    countDataGet (authenticate st now r).trace = 0 := by
  rcases auth_trace_cases st now r with h | h <;> rw [h] <;> rfl

theorem auth_no_profileGet (st : WhoopClient) (now : Int) (r : AuthResponse) :
    (authenticate st now r).trace.filter isProfileGet = [] := by
  rcases auth_trace_cases st now r with h | h <;> rw [h] <;> rfl

theorem auth_ok_spec (st : WhoopClient) (now : Int) (r : AuthResponse)
    (h : (authenticate st now r).result = .ok ()) :
    ∃ b ar, r.body = some b ∧ b.authenticationResult = some ar ∧
      authenticate st now r =
        { state := { st with access_token := ar.accessToken,
                             token_expires_at := some (now + ar.expiresIn.getD 86400) },
          result := .ok (), trace := [.authenticateCall, .loginPost] } := by
  rcases auth_cases st now r with hc | hc | hc | hc | ⟨b, ar, hb, har, hc⟩
  · rw [hc] at h; simp at h
  · rw [hc] at h; simp at h
  · rw [hc] at h; simp at h
  · rw [hc] at h; simp at h
  · exact ⟨b, ar, hb, har, hc⟩

theorem auth_error_state (st : WhoopClient) (now : Int) (r : AuthResponse)
    (err : ClientError) (h : (authenticate st now r).result = .error err) :
    (authenticate st now r).state = st := by
  rcases auth_cases st now r with hc | hc | hc | hc | ⟨b, ar, hb, har, hc⟩
  · rw [hc]
  · rw [hc]
  · rw [hc]
  · rw [hc]
  · rw [hc] at h; simp at h

theorem parse2xx_some (st1 : WhoopClient) (r : DataResponse) (tr : List NetEvent)
    (j : String) (h : r.json = some j) :
    parse2xx st1 r tr = { state := st1, result := .ok j, trace := tr } := by
  unfold parse2xx; rw [h]

theorem parse2xx_none (st1 : WhoopClient) (r : DataResponse) (tr : List NetEvent)
    (h : r.json = none) :
    parse2xx st1 r tr =
      { state := st1, result := .error (.jsonDecodeError r.text), trace := tr } := by
  unfold parse2xx; rw [h]

theorem dispatch_2xx (st1 : WhoopClient) (now : Int) (ep : String) (pa : Option String)
    (r1 : DataResponse) (ra : AuthResponse) (r2 : DataResponse) (tr0 : List NetEvent)
    (h : is2xx r1.status = true) :
    dispatch st1 now ep pa r1 ra r2 tr0 =
      parse2xx st1 r1 (tr0 ++ [NetEvent.dataGet ep pa st1.access_token]) := by
  simp [dispatch, h]

theorem dispatch_other (st1 : WhoopClient) (now : Int) (ep : String) (pa : Option String)
    (r1 : DataResponse) (ra : AuthResponse) (r2 : DataResponse) (tr0 : List NetEvent)
    (h1 : is2xx r1.status = false) (h2 : ¬ r1.status = 401) :
    dispatch st1 now ep pa r1 ra r2 tr0 =
      { state := st1, result := .error (.apiRequestError r1.status r1.text),
        trace := tr0 ++ [NetEvent.dataGet ep pa st1.access_token] } := by
  simp [dispatch, h1, h2]

theorem dispatch_401 (st1 : WhoopClient) (now : Int) (ep : String) (pa : Option String)
    (r1 : DataResponse) (ra : AuthResponse) (r2 : DataResponse) (tr0 : List NetEvent)
    (h : r1.status = 401) :
    dispatch st1 now ep pa r1 ra r2 tr0 =
      retry401 st1 now ep pa ra r2 (tr0 ++ [NetEvent.dataGet ep pa st1.access_token]) := by
  have h0 : is2xx 401 = false := rfl
  simp [dispatch, h, h0]

theorem retry401_auth_err (st1 : WhoopClient) (now : Int) (ep : String)
    (pa : Option String) (ra : AuthResponse) (r2 : DataResponse) (tr1 : List NetEvent)
    (err : ClientError) (h : (authenticate st1 now ra).result = .error err) :
    retry401 st1 now ep pa ra r2 tr1 =
      { state := (authenticate st1 now ra).state, result := .error err,
        trace := tr1 ++ (authenticate st1 now ra).trace } := by
  simp only [retry401, h]

theorem retry401_auth_ok (st1 : WhoopClient) (now : Int) (ep : String)
    (pa : Option String) (ra : AuthResponse) (r2 : DataResponse) (tr1 : List NetEvent)
    (h : (authenticate st1 now ra).result = .ok ()) :
    retry401 st1 now ep pa ra r2 tr1 =
      (if is2xx r2.status then
        parse2xx (authenticate st1 now ra).state r2
          (tr1 ++ (authenticate st1 now ra).trace ++
            [NetEvent.dataGet ep pa (authenticate st1 now ra).state.access_token])
      else
        { state := (authenticate st1 now ra).state,
          result := .error (.httpStatusError r2.status r2.text),
          trace := tr1 ++ (authenticate st1 now ra).trace ++
            [NetEvent.dataGet ep pa (authenticate st1 now ra).state.access_token] }) := by
  simp only [retry401, h]

theorem mr_ensure_err (st : WhoopClient) (now : Int) (ep : String) (pa : Option String)
    (o : Oracle) (err : ClientError)
    (h : (ensure_authenticated st now (o.auth 0)).result = .error err) :
    make_request st now ep pa o =
      { state := (ensure_authenticated st now (o.auth 0)).state,
        result := .error err,
        trace := (ensure_authenticated st now (o.auth 0)).trace } := by
  simp only [make_request, h]

theorem mr_ensure_ok (st : WhoopClient) (now : Int) (ep : String) (pa : Option String)
    (o : Oracle) (h : (ensure_authenticated st now (o.auth 0)).result = .ok ()) :
    make_request st now ep pa o =
      dispatch (ensure_authenticated st now (o.auth 0)).state now ep pa (o.data 0)
        (o.auth (if needs_refresh st now then 1 else 0)) (o.data 1)
        (ensure_authenticated st now (o.auth 0)).trace := by
  simp only [make_request, h]

theorem needs_refresh_iff (st : WhoopClient) (now : Int) :
    needs_refresh st now = true ↔
      (pyTruthyStr st.access_token = false ∨
        ∃ ex, st.token_expires_at = some ex ∧ ¬ ex = 0 ∧ now ≥ ex - 300) := by
  cases hx : st.token_expires_at with
  | none => simp [needs_refresh, pyTruthyTime, hx]
  | some t =>
      simp only [needs_refresh, pyTruthyTime, hx, Option.getD_some, Bool.or_eq_true,
        Bool.and_eq_true, Bool.not_eq_true', decide_eq_true_eq, Option.some.injEq]
      constructor
      · rintro (h | ⟨h1, h2⟩)
        · exact Or.inl h
        · exact Or.inr ⟨t, rfl, h1, h2⟩
      · rintro (h | ⟨ex, hex, h1, h2⟩)
        · exact Or.inl h
        · subst hex
          exact Or.inr ⟨h1, h2⟩

theorem get_user_id_fields (st : WhoopClient) (r : ProfileResponse) :
    (get_user_id st r).1.email = st.email ∧
    (get_user_id st r).1.password = st.password ∧
    (get_user_id st r).1.access_token = st.access_token ∧
    (get_user_id st r).1.token_expires_at = st.token_expires_at := by
  simp only [get_user_id]
  repeat' split
  all_goals exact ⟨rfl, rfl, rfl, rfl⟩

theorem parse2xx_trace (st1 : WhoopClient) (r : DataResponse) (tr : List NetEvent) :
    (parse2xx st1 r tr).trace = tr := by
  unfold parse2xx; split <;> rfl

theorem parse2xx_state (st1 : WhoopClient) (r : DataResponse) (tr : List NetEvent) :
    (parse2xx st1 r tr).state = st1 := by
  unfold parse2xx; split <;> rfl

theorem ensure_state_cases (st : WhoopClient) (now : Int) (r : AuthResponse) :
    (ensure_authenticated st now r).state = st ∨
    (ensure_authenticated st now r).state = (authenticate st now r).state := by
  unfold ensure_authenticated
  split
  · exact Or.inr rfl
  · exact Or.inl rfl

theorem ensure_no_dataGet (st : WhoopClient) (now : Int) (r : AuthResponse) :
    countDataGet (ensure_authenticated st now r).trace = 0 := by
  unfold ensure_authenticated
  split
  · exact auth_no_dataGet st now r
  · rfl

theorem auth_user_id_unchanged (st : WhoopClient) (now : Int) (r : AuthResponse) :
    (authenticate st now r).state.user_id = st.user_id := by
  rcases auth_cases st now r with hc | hc | hc | hc | ⟨b, ar, hb, har, hc⟩ <;> rw [hc]

theorem auth_preserves_inv (st : WhoopClient) (now : Int) (r : AuthResponse)
    (hInv : TokenInvariant st) : TokenInvariant (authenticate st now r).state := by
  rcases auth_cases st now r with hc | hc | hc | hc | ⟨b, ar, hb, har, hc⟩ <;> rw [hc]
  · exact hInv
  · exact hInv
  · exact hInv
  · exact hInv
  · intro hsome
    rfl

theorem retry401_state_cases (st1 : WhoopClient) (now : Int) (ep : String)
    (pa : Option String) (ra : AuthResponse) (r2 : DataResponse) (tr1 : List NetEvent) :
    (retry401 st1 now ep pa ra r2 tr1).state = (authenticate st1 now ra).state := by
  simp only [retry401]
  split
  · rfl
  · split
    · rw [parse2xx_state]
    · rfl

theorem dispatch_state_cases (st1 : WhoopClient) (now : Int) (ep : String)
    (pa : Option String) (r1 : DataResponse) (ra : AuthResponse) (r2 : DataResponse)
    (tr0 : List NetEvent) :
    (dispatch st1 now ep pa r1 ra r2 tr0).state = st1 ∨
    (dispatch st1 now ep pa r1 ra r2 tr0).state = (authenticate st1 now ra).state := by
  simp only [dispatch]
  split
  · rw [parse2xx_state]; exact Or.inl rfl
  · split
    · rw [retry401_state_cases]; exact Or.inr rfl
    · exact Or.inl rfl

theorem mr_state_cases (st : WhoopClient) (now : Int) (ep : String) (pa : Option String)
    (o : Oracle) :
    (make_request st now ep pa o).state = (ensure_authenticated st now (o.auth 0)).state ∨
    (make_request st now ep pa o).state =
      (authenticate (ensure_authenticated st now (o.auth 0)).state now
        (o.auth (if needs_refresh st now then 1 else 0))).state := by
  cases hres : (ensure_authenticated st now (o.auth 0)).result with
  | error err =>
      rw [mr_ensure_err st now ep pa o err hres]
      exact Or.inl rfl
  | ok u =>
      cases u
      rw [mr_ensure_ok st now ep pa o hres]
      exact dispatch_state_cases _ now ep pa _ _ _ _

theorem dispatch_trace_shape (st1 : WhoopClient) (now : Int) (ep : String)
    (pa : Option String) (r1 : DataResponse) (ra : AuthResponse) (r2 : DataResponse)
    (tr0 : List NetEvent) :
    ∃ rest, (dispatch st1 now ep pa r1 ra r2 tr0).trace =
      tr0 ++ [NetEvent.dataGet ep pa st1.access_token] ++ rest := by
  simp only [dispatch]
  split
  · exact ⟨[], by rw [parse2xx_trace, List.append_nil]⟩
  · split
    · simp only [retry401]
      split
      · exact ⟨(authenticate st1 now ra).trace, by rw [List.append_assoc]⟩
      · split
        · refine ⟨(authenticate st1 now ra).trace ++
            [NetEvent.dataGet ep pa (authenticate st1 now ra).state.access_token], ?_⟩
          rw [parse2xx_trace]
          simp [List.append_assoc]
        · refine ⟨(authenticate st1 now ra).trace ++
            [NetEvent.dataGet ep pa (authenticate st1 now ra).state.access_token], ?_⟩
          simp [List.append_assoc]
    · exact ⟨[], by rw [List.append_nil]⟩

/-! ### Claim theorems -/

/-- C3: authenticate() with an empty or absent email or password fails with
the credential error and issues no network request; the login POST only
happens when both credentials are non-empty. -/
theorem authenticate_credential_gate (st : WhoopClient) (now : Int) (r : AuthResponse) :
    ((pyTruthyStr st.email = false ∨ pyTruthyStr st.password = false) →
      (authenticate st now r).result = .error .credentialError ∧
      (authenticate st now r).trace.filter isNetReq = []) ∧
    ((authenticate st now r).trace.filter isNetReq ≠ [] →
      pyTruthyStr st.email = true ∧ pyTruthyStr st.password = true) := by
  have key : ∀ hcond : (!pyTruthyStr st.email || !pyTruthyStr st.password) = true,
      authenticate st now r =
        { state := st, result := .error .credentialError, trace := [.authenticateCall] } := by
    intro hcond
    unfold authenticate
    rw [if_pos hcond]
  constructor
  · intro h
    have hcond : (!pyTruthyStr st.email || !pyTruthyStr st.password) = true := by
      rcases h with h | h <;> simp [h]
    rw [key hcond]
    exact ⟨rfl, rfl⟩
  · intro h
    cases he : pyTruthyStr st.email with
    | false =>
        exfalso
        apply h
        rw [key (by simp [he])]
        rfl
    | true =>
        cases hp : pyTruthyStr st.password with
        | false =>
            exfalso
            apply h
            rw [key (by simp [hp])]
            rfl
        | true => exact ⟨rfl, rfl⟩

/-- C3 witness: with an empty password the call fails with the credential
error and no network request, at a concrete client. -/
theorem authenticate_credential_gate_witness :
    (authenticate cEmptyPw 0 rLogin).result = .error .credentialError ∧
    (authenticate cEmptyPw 0 rLogin).trace.filter isNetReq = [] :=
  (authenticate_credential_gate cEmptyPw 0 rLogin).1 (Or.inr (by decide))

/-- C9: every failing authenticate() call leaves the session unchanged:
access_token, token_expires_at and user_id keep their prior values. -/
theorem authenticate_failure_preserves_session (st : WhoopClient) (now : Int)
    (r : AuthResponse) (err : ClientError)
    (h : (authenticate st now r).result = .error err) :
    (authenticate st now r).state.access_token = st.access_token ∧
    (authenticate st now r).state.token_expires_at = st.token_expires_at ∧
    (authenticate st now r).state.user_id = st.user_id := by
  rw [auth_error_state st now r err h]
  exact ⟨rfl, rfl, rfl⟩

/-- C9 witness: a rejected login leaves the concrete session untouched. -/
theorem authenticate_failure_preserves_session_witness :
    (authenticate cFresh 0 rLoginDenied).state.access_token = cFresh.access_token ∧
    (authenticate cFresh 0 rLoginDenied).state.token_expires_at = cFresh.token_expires_at ∧
    (authenticate cFresh 0 rLoginDenied).state.user_id = cFresh.user_id :=
  authenticate_failure_preserves_session cFresh 0 rLoginDenied
    (.authenticationError "denied") (by decide)

/-- C10: with a token present but no recorded expiry, ensureAuthenticated is
a no-op — no re-authentication, the expiry-margin check is skipped. -/
theorem ensure_token_without_expiry_noop (st : WhoopClient) (now : Int) (r : AuthResponse)
    (h1 : pyTruthyStr st.access_token = true) (h2 : st.token_expires_at = none) :
    ensure_authenticated st now r = { state := st, result := .ok (), trace := [] } := by
  apply ensure_of_fresh
  unfold needs_refresh
  rw [h1, h2]
  rfl

/-- C10 witness: a concrete client with a token and no expiry, at a very
late current time, still triggers no re-authentication. -/
theorem ensure_token_without_expiry_noop_witness :
    ensure_authenticated cTokNoExp 999999999 rLogin =
      { state := cTokNoExp, result := .ok (), trace := [] } :=
  ensure_token_without_expiry_noop cTokNoExp 999999999 rLogin (by decide) rfl

/-- C7: a successful authenticate() sets token_expires_at to the
authentication time plus the ExpiresIn value of the response body,
defaulting to 86400 seconds when ExpiresIn is absent. -/
theorem authenticate_expiry_lifetime (st : WhoopClient) (now : Int) (r : AuthResponse)
    (h : (authenticate st now r).result = .ok ()) :
    ∃ b ar, r.body = some b ∧ b.authenticationResult = some ar ∧
      (authenticate st now r).state.token_expires_at =
        some (now + ar.expiresIn.getD 86400) ∧
      (ar.expiresIn = none →
        (authenticate st now r).state.token_expires_at = some (now + 86400)) := by
  obtain ⟨b, ar, hb, har, heq⟩ := auth_ok_spec st now r h
  refine ⟨b, ar, hb, har, ?_, ?_⟩
  · rw [heq]
  · intro hn
    rw [heq]
    simp [hn]

/-- C7 witness: a login response without ExpiresIn yields expiry
now + 86400 at a concrete input. -/
theorem authenticate_expiry_lifetime_witness :
    ∃ b ar, rLoginNoExp.body = some b ∧ b.authenticationResult = some ar ∧
      (authenticate cNoTok 50 rLoginNoExp).state.token_expires_at =
        some (50 + ar.expiresIn.getD 86400) ∧
      (ar.expiresIn = none →
        (authenticate cNoTok 50 rLoginNoExp).state.token_expires_at = some (50 + 86400)) :=
  authenticate_expiry_lifetime cNoTok 50 rLoginNoExp (by decide)

/-- C2 counterexample: a held token with recorded expiry 0 and now = 0
satisfies now >= expiresAt - 300, yet ensureAuthenticated performs zero
authenticate() calls (the Python float truthiness of token_expires_at makes
a 0 timestamp behave as absent), refuting the claim that exactly one
authenticate() call is made. -/
theorem ensure_expiry_margin_counterexample :
    pyTruthyStr cZero.access_token = true ∧
    cZero.token_expires_at = some 0 ∧
    ((0 : Int) ≥ 0 - 300) ∧
    ensure_authenticated cZero 0 rLogin =
      { state := cZero, result := .ok (), trace := [] } := by decide

/-- C2 (amended): a data-fetching call performs exactly one authenticate()
before the GET when the token is absent/empty, or when a nonzero expiry is
recorded and now >= expiresAt - 300; it performs zero authenticate() calls
when a token is held and the expiry is absent, zero, or more than 300
seconds away; and the make_request trace puts the ensure-phase events
before the first data GET. -/
theorem ensure_expiry_margin_amended (st : WhoopClient) (now : Int) (r : AuthResponse)
    (ep : String) (pa : Option String) (o : Oracle) :
    ((pyTruthyStr st.access_token = false ∨
        (∃ ex, st.token_expires_at = some ex ∧ ¬ ex = 0 ∧ now ≥ ex - 300)) →
      ensure_authenticated st now r = authenticate st now r ∧
      countAuth (ensure_authenticated st now r).trace = 1) ∧
    ((pyTruthyStr st.access_token = true ∧
        (st.token_expires_at = none ∨ st.token_expires_at = some 0 ∨
          (∃ ex, st.token_expires_at = some ex ∧ now < ex - 300))) →
      ensure_authenticated st now r = { state := st, result := .ok (), trace := [] }) ∧
    ((ensure_authenticated st now (o.auth 0)).result = .ok () →
      ∃ rest, (make_request st now ep pa o).trace =
        (ensure_authenticated st now (o.auth 0)).trace ++
          [NetEvent.dataGet ep pa (ensure_authenticated st now (o.auth 0)).state.access_token]
          ++ rest) := by
  refine ⟨?_, ?_, ?_⟩
  · intro h
    have hn : needs_refresh st now = true := (needs_refresh_iff st now).mpr h
    rw [ensure_of_refresh st now r hn]
    exact ⟨rfl, auth_countAuth st now r⟩
  · rintro ⟨htok, hexp⟩
    have hn : needs_refresh st now = false := by
      cases hval : needs_refresh st now with
      | false => rfl
      | true =>
          exfalso
          rcases (needs_refresh_iff st now).mp hval with hf | ⟨ex, hex, hnz, hge⟩
          · rw [htok] at hf
            exact Bool.true_eq_false ▸ hf
          · rcases hexp with hnone | hzero | ⟨ey, hey, hlt⟩
            · rw [hnone] at hex
              exact Option.noConfusion hex
            · rw [hzero] at hex
              exact hnz (Option.some.inj hex).symm
            · rw [hey] at hex
              have : ey = ex := Option.some.inj hex
              subst this
              omega
    exact ensure_of_fresh st now r hn
  · intro hens
    rw [mr_ensure_ok st now ep pa o hens]
    exact dispatch_trace_shape _ now ep pa _ _ _ _

/-- C2 (amended) witness: at a stale concrete session, ensure performs
exactly one authenticate() call. -/
theorem ensure_expiry_margin_amended_witness :
    ensure_authenticated cFresh 99800 rLogin = authenticate cFresh 99800 rLogin ∧
    countAuth (ensure_authenticated cFresh 99800 rLogin).trace = 1 :=
  (ensure_expiry_margin_amended cFresh 99800 rLogin "/ep" none oPlain).1
    (Or.inr ⟨100000, rfl, by decide, by decide⟩)

/-- C4 counterexample: the error raised for a rejected login is identical
for statuses 403 and 500 with the same body, so it cannot carry the
provider status code; and the error for a 2xx body missing
AuthenticationResult is identical across different statuses and bodies, so
it carries neither, refuting the claim that AuthenticationError carries the
provider status code and body text in every failure case. -/
theorem authenticate_error_payload_counterexample :
    (¬ is2xx 403 = true) ∧ (¬ is2xx 500 = true) ∧ ¬ (403 : Nat) = 500 ∧
    authenticate cNoTok 0 ⟨403, "denied", none⟩ =
      authenticate cNoTok 0 ⟨500, "denied", none⟩ ∧
    (authenticate cNoTok 0 ⟨403, "denied", none⟩).result =
      .error (.authenticationError "denied") ∧
    authenticate cNoTok 0 rLoginMissing = authenticate cNoTok 0 ⟨204, "other", some ⟨none⟩⟩ ∧
    (authenticate cNoTok 0 rLoginMissing).result = .error .missingAuthResult := by decide

/-- C4 (amended): with non-empty credentials, a non-2xx login fails with
the authentication error whose message carries the provider body text (the
status code is only logged); a 2xx body lacking AuthenticationResult fails
with the fixed missing-result error; authenticate() runs exactly once and
issues at most one network request (no retry inside). -/
theorem authenticate_failure_amended (st : WhoopClient) (now : Int) (r : AuthResponse)
    (hcred : (!pyTruthyStr st.email || !pyTruthyStr st.password) = false) :
    (is2xx r.status = false →
      (authenticate st now r).result = .error (.authenticationError r.text)) ∧
    (∀ b, is2xx r.status = true → r.body = some b → b.authenticationResult = none →
      (authenticate st now r).result = .error .missingAuthResult) ∧
    countAuth (authenticate st now r).trace = 1 ∧
    (authenticate st now r).trace.countP isNetReq ≤ 1 := by
  refine ⟨?_, ?_, auth_countAuth st now r, ?_⟩
  · intro h2
    unfold authenticate
    simp [hcred, h2]
  · intro b h2 hb hres
    unfold authenticate
    simp [hcred, h2, hb, hres]
  · rcases auth_trace_cases st now r with h | h <;> rw [h] <;> decide

/-- C4 (amended) witness: a concrete rejected login fails with the
authentication error carrying the body text. -/
theorem authenticate_failure_amended_witness :
    (authenticate cNoTok 0 rLoginDenied).result =
      .error (.authenticationError "denied") :=
  (authenticate_failure_amended cNoTok 0 rLoginDenied (by decide)).1 (by decide)

/-- C6 counterexample: a successful authenticate() performs no profile
fetch — its trace holds only the login POST and user_id is unchanged —
refuting the claim that every successful authenticate() fetches the user
identifier. -/
theorem authenticate_no_profile_fetch_counterexample :
    (authenticate cNoTok 0 rLogin).result = .ok () ∧
    (authenticate cNoTok 0 rLogin).trace = [.authenticateCall, .loginPost] ∧
    (authenticate cNoTok 0 rLogin).trace.filter isProfileGet = [] ∧
    (authenticate cNoTok 0 rLogin).state.user_id = cNoTok.user_id := by decide

/-- C6 (amended): authenticate() never fetches the user identifier (no
profile request in its trace, user_id unchanged); the repository defines a
get_user_id helper with the claimed best-effort semantics — no-op without a
truthy token, failures swallowed with the state preserved, success storing
the body user_id — but no code path invokes it. -/
theorem authenticate_profile_fetch_amended (st : WhoopClient) (now : Int)
    (r : AuthResponse) (pr : ProfileResponse) :
    (authenticate st now r).trace.filter isProfileGet = [] ∧
    (authenticate st now r).state.user_id = st.user_id ∧
    (pyTruthyStr st.access_token = false → get_user_id st pr = (st, [])) ∧
    (is2xx pr.status = false ∨ pr.body = none → (get_user_id st pr).1 = st) ∧
    (∀ b, pyTruthyStr st.access_token = true → is2xx pr.status = true →
      pr.body = some b →
      get_user_id st pr =
        ({ st with user_id := b.user_id },
          [NetEvent.profileGet (st.access_token.getD "")])) := by
  refine ⟨auth_no_profileGet st now r, auth_user_id_unchanged st now r, ?_, ?_, ?_⟩
  · intro h
    simp [get_user_id, h]
  · intro h
    cases htok : pyTruthyStr st.access_token with
    | false => simp [get_user_id, htok]
    | true =>
        rcases h with h | h
        · simp [get_user_id, htok, h]
        · cases h2 : is2xx pr.status with
          | false => simp [get_user_id, htok, h2]
          | true => simp [get_user_id, htok, h2, h]
  · intro b htok h2 hb
    simp [get_user_id, htok, h2, hb]

/-- C6 (amended) witness: at a concrete client with a token, get_user_id
succeeds and stores 42, while a successful authenticate() trace holds no
profile request. -/
theorem authenticate_profile_fetch_amended_witness :
    (authenticate cFresh 0 rLogin).trace.filter isProfileGet = [] ∧
    get_user_id cFresh pOk =
      ({ cFresh with user_id := pOk.body.getD ⟨none⟩ |>.user_id },
        [NetEvent.profileGet (cFresh.access_token.getD "")]) :=
  ⟨(authenticate_profile_fetch_amended cFresh 0 rLogin pOk).1,
   (authenticate_profile_fetch_amended cFresh 0 rLogin pOk).2.2.2.2 ⟨some 42⟩
     (by decide) (by decide) rfl⟩

/-- C8: every operation preserves the invariant that a held token implies a
recorded expiry, and a successful authenticate() replaces the session
wholesale: access_token and token_expires_at are both set in the same step
from the same response, with the expiry equal to the authentication time
plus the vendor-reported lifetime. -/
theorem session_invariant_preservation (st : WhoopClient) (now : Int) (r : AuthResponse)
    (pr : ProfileResponse) (ep : String) (pa : Option String) (o : Oracle) :
    (TokenInvariant st → TokenInvariant (authenticate st now r).state) ∧
    (TokenInvariant st → TokenInvariant (ensure_authenticated st now r).state) ∧
    (TokenInvariant st → TokenInvariant (get_user_id st pr).1) ∧
    (TokenInvariant st → TokenInvariant (make_request st now ep pa o).state) ∧
    ((authenticate st now r).result = .ok () →
      ∃ b ar, r.body = some b ∧ b.authenticationResult = some ar ∧
        (authenticate st now r).state =
          { st with access_token := ar.accessToken,
                    token_expires_at := some (now + ar.expiresIn.getD 86400) }) := by
  refine ⟨auth_preserves_inv st now r, ?_, ?_, ?_, ?_⟩
  · intro hInv
    rcases ensure_state_cases st now r with h | h <;> rw [h]
    · exact hInv
    · exact auth_preserves_inv st now r hInv
  · intro hInv
    obtain ⟨_, _, htok, hexp⟩ := get_user_id_fields st pr
    unfold TokenInvariant
    rw [htok, hexp]
    exact hInv
  · intro hInv
    have hInv1 : TokenInvariant (ensure_authenticated st now (o.auth 0)).state := by
      rcases ensure_state_cases st now (o.auth 0) with h | h <;> rw [h]
      · exact hInv
      · exact auth_preserves_inv st now (o.auth 0) hInv
    rcases mr_state_cases st now ep pa o with h | h <;> rw [h]
    · exact hInv1
    · exact auth_preserves_inv _ now _ hInv1
  · intro h
    obtain ⟨b, ar, hb, har, heq⟩ := auth_ok_spec st now r h
    refine ⟨b, ar, hb, har, ?_⟩
    rw [heq]

/-- C8 witness: the invariant holds for the state after a concrete
successful authenticate(), and that state is the wholesale replacement
computed from the concrete response. -/
theorem session_invariant_preservation_witness :
    TokenInvariant (authenticate cFresh 0 rLogin).state ∧
    (∃ b ar, rLogin.body = some b ∧ b.authenticationResult = some ar ∧
      (authenticate cFresh 0 rLogin).state =
        { cFresh with access_token := ar.accessToken,
                      token_expires_at := some (0 + ar.expiresIn.getD 86400) }) :=
  ⟨(session_invariant_preservation cFresh 0 rLogin pOk "/ep" none oPlain).1 (by decide),
   (session_invariant_preservation cFresh 0 rLogin pOk "/ep" none oPlain).2.2.2.2
     (by decide)⟩

/-- C1: when the first GET returns 401 and the forced re-authentication
succeeds, the request re-authenticates exactly once, retries the same GET
(same endpoint and params) exactly once with the rebuilt bearer token,
issues exactly two data GETs in total (never a third attempt), returns the
retried 2xx JSON body, and fails with the propagated status error — an
ApiRequestError in the spec taxonomy — when the retried GET is non-2xx. -/
theorem make_request_single_retry_on_401 (st : WhoopClient) (now : Int) (ep : String)
    (pa : Option String) (o : Oracle)
    (hens : (ensure_authenticated st now (o.auth 0)).result = .ok ())
    (h401 : (o.data 0).status = 401)
    (hre : (authenticate (ensure_authenticated st now (o.auth 0)).state now
      (o.auth (if needs_refresh st now then 1 else 0))).result = .ok ()) :
    (make_request st now ep pa o).trace =
      (ensure_authenticated st now (o.auth 0)).trace ++
        [NetEvent.dataGet ep pa (ensure_authenticated st now (o.auth 0)).state.access_token]
        ++
        (authenticate (ensure_authenticated st now (o.auth 0)).state now
          (o.auth (if needs_refresh st now then 1 else 0))).trace ++
        [NetEvent.dataGet ep pa
          (authenticate (ensure_authenticated st now (o.auth 0)).state now
            (o.auth (if needs_refresh st now then 1 else 0))).state.access_token] ∧
    countAuth (authenticate (ensure_authenticated st now (o.auth 0)).state now
      (o.auth (if needs_refresh st now then 1 else 0))).trace = 1 ∧
    countDataGet (make_request st now ep pa o).trace = 2 ∧
    (∀ j, is2xx (o.data 1).status = true → (o.data 1).json = some j →
      (make_request st now ep pa o).result = .ok j) ∧
    (is2xx (o.data 1).status = false →
      (make_request st now ep pa o).result =
        .error (.httpStatusError (o.data 1).status (o.data 1).text) ∧
      isApiRequestError (.httpStatusError (o.data 1).status (o.data 1).text) = true) := by
  have hmr := mr_ensure_ok st now ep pa o hens
  have hd := dispatch_401 (ensure_authenticated st now (o.auth 0)).state now ep pa
    (o.data 0) (o.auth (if needs_refresh st now then 1 else 0)) (o.data 1)
    (ensure_authenticated st now (o.auth 0)).trace h401
  have hr := retry401_auth_ok (ensure_authenticated st now (o.auth 0)).state now ep pa
    (o.auth (if needs_refresh st now then 1 else 0)) (o.data 1)
    ((ensure_authenticated st now (o.auth 0)).trace ++
      [NetEvent.dataGet ep pa (ensure_authenticated st now (o.auth 0)).state.access_token])
    hre
  have htr : (make_request st now ep pa o).trace =
      (ensure_authenticated st now (o.auth 0)).trace ++
        [NetEvent.dataGet ep pa (ensure_authenticated st now (o.auth 0)).state.access_token]
        ++
        (authenticate (ensure_authenticated st now (o.auth 0)).state now
          (o.auth (if needs_refresh st now then 1 else 0))).trace ++
        [NetEvent.dataGet ep pa
          (authenticate (ensure_authenticated st now (o.auth 0)).state now
            (o.auth (if needs_refresh st now then 1 else 0))).state.access_token] := by
    rw [hmr, hd, hr]
    cases h2 : is2xx (o.data 1).status with
    | true =>
        rw [if_pos rfl, parse2xx_trace]
    | false =>
        rw [if_neg (by simp)]
  have hcd : countDataGet (make_request st now ep pa o).trace = 2 := by
    rw [htr]
    have h1 := ensure_no_dataGet st now (o.auth 0)
    have h2 := auth_no_dataGet (ensure_authenticated st now (o.auth 0)).state now
      (o.auth (if needs_refresh st now then 1 else 0))
    unfold countDataGet at h1 h2 ⊢
    simp [List.countP_append, List.countP_cons, h1, h2, isDataGet]
  refine ⟨htr, auth_countAuth _ _ _, hcd, ?_, ?_⟩
  · intro j h2 hj
    rw [hmr, hd, hr, if_pos h2, parse2xx_some _ _ _ j hj]
  · intro h2
    rw [hmr, hd, hr, if_neg (by simp [h2])]
    exact ⟨rfl, rfl⟩

/-- C1 witness: at a concrete fresh client whose first GET is 401 and whose
retried GET succeeds, exactly two data GETs happen and the retried body is
returned. -/
theorem make_request_single_retry_on_401_witness :
    countDataGet (make_request cFresh 0 "/ep" (some "d") oRetryOk).trace = 2 ∧
    (make_request cFresh 0 "/ep" (some "d") oRetryOk).result = .ok "okj" :=
  ⟨(make_request_single_retry_on_401 cFresh 0 "/ep" (some "d") oRetryOk
      (by decide) (by decide) (by decide)).2.2.1,
   (make_request_single_retry_on_401 cFresh 0 "/ep" (some "d") oRetryOk
      (by decide) (by decide) (by decide)).2.2.2.1 "okj" (by decide) (by decide)⟩

/-- C5: after a successful ensure step, a 2xx first GET with valid JSON
returns the parsed body; a 2xx body that is not valid JSON fails with the
parse-failure error; a non-2xx non-401 status fails with the request error
carrying status and body; and after the single permitted 401 retry, a
non-2xx retried response fails with the propagated status error carrying
status and body — all three failures being ApiRequestError in the spec
taxonomy. -/
theorem make_request_error_paths (st : WhoopClient) (now : Int) (ep : String)
    (pa : Option String) (o : Oracle)
    (hens : (ensure_authenticated st now (o.auth 0)).result = .ok ()) :
    (∀ j, is2xx (o.data 0).status = true → (o.data 0).json = some j →
      (make_request st now ep pa o).result = .ok j) ∧
    (is2xx (o.data 0).status = true → (o.data 0).json = none →
      (make_request st now ep pa o).result = .error (.jsonDecodeError (o.data 0).text) ∧
      isApiRequestError (.jsonDecodeError (o.data 0).text) = true) ∧
    (is2xx (o.data 0).status = false → ¬ (o.data 0).status = 401 →
      (make_request st now ep pa o).result =
        .error (.apiRequestError (o.data 0).status (o.data 0).text) ∧
      isApiRequestError (.apiRequestError (o.data 0).status (o.data 0).text) = true) ∧
    ((o.data 0).status = 401 →
      (authenticate (ensure_authenticated st now (o.auth 0)).state now
        (o.auth (if needs_refresh st now then 1 else 0))).result = .ok () →
      is2xx (o.data 1).status = false →
      (make_request st now ep pa o).result =
        .error (.httpStatusError (o.data 1).status (o.data 1).text) ∧
      isApiRequestError (.httpStatusError (o.data 1).status (o.data 1).text) = true) := by
  have hmr := mr_ensure_ok st now ep pa o hens
  refine ⟨?_, ?_, ?_, ?_⟩
  · intro j h2 hj
    rw [hmr, dispatch_2xx _ now ep pa _ _ _ _ h2, parse2xx_some _ _ _ j hj]
  · intro h2 hj
    rw [hmr, dispatch_2xx _ now ep pa _ _ _ _ h2, parse2xx_none _ _ _ hj]
    exact ⟨rfl, rfl⟩
  · intro h2 h401
    rw [hmr, dispatch_other _ now ep pa _ _ _ _ h2 h401]
    exact ⟨rfl, rfl⟩
  · intro h401 hre h2
    rw [hmr, dispatch_401 _ now ep pa _ _ _ _ h401,
      retry401_auth_ok _ now ep pa _ _ _ hre, if_neg (by simp [h2])]
    exact ⟨rfl, rfl⟩

/-- C5 witness: a concrete 500 first response yields the request error
carrying status 500 and the body text. -/
theorem make_request_error_paths_witness :
    (make_request cFresh 0 "/ep" none o500).result =
      .error (.apiRequestError 500 "boom") ∧
    isApiRequestError (.apiRequestError 500 "boom") = true :=
  (make_request_error_paths cFresh 0 "/ep" none o500 (by decide)).2.2.1
    (by decide) (by decide)
